import Mathlib

/-!
Verification development for the `llm-quiz-solver` repository.

The Python sources under `app/` (handlers.py, runner.py, main.py) are shallowly
embedded below.  External collaborators are modelled as inputs:

* BeautifulSoup's view of the markup is an `Html` value holding the list of
  anchors that carry an `href` attribute (in document order, with their visible
  text) and the list of `form` elements (with their optional `action`
  attribute).  This is exactly the data the repository reads from the parser.
* A parsed pandas frame is a `DataFrame` (named columns with a numeric-dtype
  flag and rational cell values; cells are modelled as non-null rationals,
  which is the shape every claim exercises).
* Network downloads are an environment `DownloadEnv` mapping a file URL to the
  outcome of downloading it and parsing it with the suffix-selected parser
  (`none` models any download or parse exception, which the code skips).
* Python floats and wall-clock timestamps are modelled with `ℚ`.
* Python `str.lower` and the `\w`/`\s`/`\d` character classes are modelled on
  their ASCII fragment, which is what every instruction in the repository uses.
-/

/-- Python string containment helper: does `sub` occur at the head of `l`? -/
def matchesAt : List Char → List Char → Bool
  | [], _ => true
  | _ :: _, [] => false
  | a :: as, b :: bs => a == b && matchesAt as bs

/-- Python `sub in s` on character lists (empty `sub` is contained everywhere). -/
def subIn : List Char → List Char → Bool
  | sub, [] => matchesAt sub []
  | sub, l@(_ :: cs) => matchesAt sub l || subIn sub cs

/-- Python `sub in s` for strings. -/
def pyIn (sub s : String) : Bool := subIn sub.data s.data

/-- Python `s.lower()` (ASCII). -/
def pyLower (s : String) : String := ⟨s.data.map Char.toLower⟩

/-- Python `s[:n]` (used for the 300-character diagnostic snippet). -/
def takeChars (n : ℕ) (s : String) : String := ⟨s.data.take n⟩

/-- Value of a digit character run read in base 10. -/
def digitsToNat (l : List Char) : ℕ := l.foldl (fun a c => a * 10 + (c.toNat - 48)) 0

/-- JSON values, as produced by `json.loads` on the pages this program reads. -/
inductive Json where
  | null
  | bool (b : Bool)
  | num (q : ℚ)
  | str (s : String)
  | arr (xs : List Json)
  | obj (kvs : List (String × Json))
deriving Repr

/-- Python truthiness of the values that can appear in this program's dicts. -/
def truthy : Json → Bool
  | .null => false
  | .bool b => b
  | .num q => q != 0
  | .str s => s != ""
  | .arr xs => !xs.isEmpty
  | .obj kvs => !kvs.isEmpty

/-- Python `a or b` restricted to JSON-shaped values. -/
def pyOr (a b : Json) : Json := if truthy a then a else b

/-- Python `d.get(k)`: absent keys give `None` (`Json.null`). -/
def pyGet (d : List (String × Json)) (k : String) : Json :=
  (List.lookup k d).getD Json.null

/-- Python `isinstance(x, (int, float))`: note that `bool` is an `int` subtype. -/
def pyIsNumber : Json → Bool
  | .num _ => true
  | .bool _ => true
  | _ => false

/-- Numeric value of a Python number (`True` counts as 1, `False` as 0). -/
def pyNumVal : Json → ℚ
  | .num q => q
  | .bool b => if b then 1 else 0
  | _ => 0

/-- An anchor element that carries an `href` attribute, with its visible text. -/
structure Anchor where
  href : String
  text : String
deriving DecidableEq, Repr

/-- A form element with its optional `action` attribute. -/
structure Form where
  action : Option String
deriving DecidableEq, Repr

/-- The parsed markup as the repository consumes it: `soup.find_all('a', href=True)`
in document order, and the `form` elements in document order. -/
structure Html where
  anchors : List Anchor
  forms : List Form
deriving DecidableEq, Repr

/-- `find_submit_url` from app/handlers.py: first anchor whose lowered href or
lowered text contains "submit"; else the first form's non-empty action; else the
first anchor whose raw href contains "/api/" or "/task/". -/
def find_submit_url (html : Html) : Option String :=
  match html.anchors.find? (fun a => pyIn "submit" (pyLower a.href) || pyIn "submit" (pyLower a.text)) with
  | some a => some a.href
  | none =>
    let formAction : Option String :=
      match html.forms.head? with
      | some f =>
        match f.action with
        | some act => if act = "" then none else some act
        | none => none
      | none => none
    match formAction with
    | some act => some act
    | none =>
      (html.anchors.find? (fun a => pyIn "/api/" a.href || pyIn "/task/" a.href)).map (·.href)

/-- A handler result: the Python dict returned to the runner, as a key/value list. -/
def Payload := List (String × Json)

/-- Lift an `Optional[str]` into the dict-value world (`None` ↦ `null`). -/
def optStrToJson : Option String → Json
  | some s => .str s
  | none => .null

/-- The five-field answer dict built by the three strategy handlers. -/
def mkPayload (e s u : String) (answer submit : Json) : Payload :=
  [("email", .str e), ("secret", .str s), ("url", .str u),
   ("answer", answer), ("submit_url", submit)]

/-- The fallback dict built when no handler matched (app/handlers.py lines 44-53). -/
def fallbackPayload (e s u body : String) (html : Html) : Payload :=
  [("email", .str e), ("secret", .str s), ("url", .str u),
   ("answer", .num 0), ("submit_url", optStrToJson (find_submit_url html)),
   ("debug", .str "No handler matched"), ("body_snippet", .str (takeChars 300 body))]

/-- `extract_answer_from_json` from app/handlers.py: first of the keys
`result`/`value`/`number`/`total` that is present, else the sum of the first
dict value that is a list of Python numbers, else `0`. -/
def extract_answer_from_json (data : List (String × Json)) : Json :=
  match ["result", "value", "number", "total"].findSome? (fun k => List.lookup k data) with
  | some v => v
  | none =>
    match data.find? (fun kv => match kv.2 with
      | .arr xs => xs.all pyIsNumber
      | _ => false) with
    | some kv =>
      match kv.2 with
      | .arr xs => .num ((xs.map pyNumVal).sum)
      | _ => .num 0
    | none => .num 0

/-- `handle_json_quiz` from app/handlers.py: verbatim `answer` value if present,
else a derived one; submit target from the structure's `submit`/`submit_url`
fields or the locator; yields the dict only when the target is truthy. -/
def handle_json_quiz (e s u : String) (data : List (String × Json)) (html : Html) :
    Option Payload :=
  let answer : Json :=
    if (List.lookup "answer" data).isSome then (List.lookup "answer" data).getD .null
    else extract_answer_from_json data
  let submit_url : Json :=
    pyOr (pyGet data "submit") (pyOr (pyGet data "submit_url") (optStrToJson (find_submit_url html)))
  if truthy submit_url then some (mkPayload e s u answer submit_url) else none

/-- A pandas column as this program reads it: name, numeric-dtype flag, cells. -/
structure Column where
  name : String
  isNumeric : Bool
  values : List ℚ
deriving DecidableEq, Repr

/-- A parsed pandas frame (columns in file order; pandas frames are rectangular). -/
structure DataFrame where
  columns : List Column
deriving DecidableEq, Repr

/-- Python `len(df)`: the row count (read off the first column; 0 when empty). -/
def dfLen (df : DataFrame) : ℕ :=
  match df.columns.head? with
  | some c => c.values.length
  | none => 0

/-- Column selection from `compute_from_dataframe`: first column whose lowered
name occurs in the instruction, else the first numeric-dtyped column. -/
def pickColumn (df : DataFrame) (instruction : String) : Option Column :=
  match df.columns.find? (fun c => pyIn (pyLower c.name) instruction) with
  | some c => some c
  | none => df.columns.find? (·.isNumeric)

/-- One attempt of the pattern `key\s+(\d+)` at the head of `l`: the literal
key, then at least one whitespace, then a maximal run of digits. -/
def tryNumAt (key l : List Char) : Option ℕ :=
  if matchesAt key l then
    let rest := l.drop key.length
    let ws := rest.takeWhile (·.isWhitespace)
    if ws.isEmpty then none
    else
      let ds := (rest.drop ws.length).takeWhile (·.isDigit)
      if ds.isEmpty then none else some (digitsToNat ds)
  else none

/-- `re.search(key + r'\s+(\d+)', text)`: leftmost match, captured number. -/
def searchNumAfter (key : List Char) : List Char → Option ℕ
  | [] => none
  | l@(_ :: cs) =>
    match tryNumAt key l with
    | some n => some n
    | none => searchNumAfter key cs

/-- Resolution of one Python slice bound against a list length. -/
def pySliceIdx (len : ℕ) (i : ℤ) : ℕ :=
  if i < 0 then ((len : ℤ) + i).toNat else min i.toNat len

/-- Python/pandas positional slice `l[a:b]` (`df.iloc[a:b]` row-wise). -/
def pySlice {α : Type} (l : List α) (a b : ℤ) : List α :=
  (l.take (pySliceIdx l.length b)).drop (pySliceIdx l.length a)

/-- Python/pandas positional scalar access `l[i]` with negative wrap-around;
`none` models the `IndexError` pandas raises when the index is out of range. -/
def pyIlocGet {α : Type} (l : List α) (i : ℤ) : Option α :=
  if 0 ≤ i then l[i.toNat]?
  else if 0 ≤ (l.length : ℤ) + i then l[((l.length : ℤ) + i).toNat]? else none

/-- pandas `Series.max` on non-null cells (the empty case is never aggregated
by any claim; it is given a dummy value here). -/
def maxOf : List ℚ → ℚ
  | [] => 0
  | h :: t => t.foldl max h

/-- pandas `Series.min` on non-null cells (dummy value on the empty list). -/
def minOf : List ℚ → ℚ
  | [] => 0
  | h :: t => t.foldl min h

/-- The keyword aggregation at the tail of `compute_from_dataframe`:
sum/total, average/mean, count, max, min, default sum.  `count` counts
non-null cells, which is the length in this non-null cell model; the mean of
an empty window divides by zero, which `ℚ` collapses to `0` (pandas: NaN) —
no claim evaluates that corner. -/
def aggregate (instruction : String) (vals : List ℚ) : ℚ :=
  if pyIn "sum" instruction || pyIn "total" instruction then vals.sum
  else if pyIn "average" instruction || pyIn "mean" instruction then vals.sum / (vals.length : ℚ)
  else if pyIn "count" instruction then (vals.length : ℚ)
  else if pyIn "max" instruction || pyIn "maximum" instruction then maxOf vals
  else if pyIn "min" instruction || pyIn "minimum" instruction then minOf vals
  else vals.sum

/-- `compute_from_dataframe` from app/handlers.py.  A "page N" directive
windows the rows to `[(N-1)*10, (N-1)*10+10)` before aggregating; otherwise a
"row N" directive returns the value at position `N-1` directly when
`N ≤ len(df)` (Python indexing, so `row 0` reads position `-1`) and falls
through to aggregation when `N > len(df)`.  Since aggregation only reads the
selected column, row windowing is applied to that column's cells. -/
def compute_from_dataframe (df : DataFrame) (instruction : String) : Option ℚ :=
  match pickColumn df instruction with
  | none => none
  | some col =>
    match searchNumAfter "page".data instruction.data with
    | some n =>
      some (aggregate instruction
        (pySlice col.values (((n : ℤ) - 1) * 10) (((n : ℤ) - 1) * 10 + 10)))
    | none =>
      match searchNumAfter "row".data instruction.data with
      | some n =>
        if n ≤ dfLen df then pyIlocGet col.values ((n : ℤ) - 1)
        else some (aggregate instruction col.values)
      | none => some (aggregate instruction col.values)

/-- Outcome of downloading a file URL and parsing it with the parser selected
by its suffix; `none` models any network or parse exception. -/
def DownloadEnv := String → Option DataFrame

/-- First non-`none` result of `f` along a list (a Python for-loop that
`return`s inside and `continue`s otherwise). -/
def firstSome {α β : Type} : List α → (α → Option β) → Option β
  | [], _ => none
  | a :: as, f =>
    match f a with
    | some b => some b
    | none => firstSome as f

/-- `handle_data_analysis` from app/handlers.py: collect the anchors whose
lowered href mentions a data-file suffix or "download"; for each, when the
href names a `.csv`/`.xlsx`/`.xls` file, download and parse it (errors skip to
the next link) and return the first non-`None` computed answer paired with the
locator's submit target (which is included even when it is `None`). -/
def handle_data_analysis (env : DownloadEnv) (e s u body : String) (html : Html) :
    Option Payload :=
  let file_links :=
    (html.anchors.filter (fun a =>
      [".csv", ".xlsx", ".xls", "download"].any (fun ext => pyIn ext (pyLower a.href)))).map (·.href)
  if file_links.isEmpty then none
  else
    let instruction := pyLower body
    firstSome file_links (fun furl =>
      if pyIn ".csv" (pyLower furl) || pyIn ".xlsx" (pyLower furl) || pyIn ".xls" (pyLower furl) then
        match env furl with
        | none => none
        | some df =>
          match compute_from_dataframe df instruction with
          | some ans => some (mkPayload e s u (.num ans) (optStrToJson (find_submit_url html)))
          | none => none
      else none)

/-- Python `\w` (ASCII fragment): letters, digits, underscore. -/
def isWordChar (c : Char) : Bool := c.isAlphanum || c == '_'

/-- Word-boundary test after a word character: the following character must be
absent or non-word. -/
def boundaryAfterWord : Option Char → Bool
  | none => true
  | some c => !isWordChar c

/-- One attempt of `\d+\.?\d*\b` at the head of `l` (the caller has already
established the leading `\b` and that `l` starts with a digit).  Returns the
matched characters and the remainder.  The backtracking of the greedy `\d*`
and of the optional dot is played out exactly: when the full greedy candidate
fails its trailing `\b`, the only retreat that can succeed is `\d*` shrunk to
empty (boundary between `.` and a following digit), and failing the dot branch
entirely the match falls back to the bare integer part, whose trailing `\b`
against the `.` always holds. -/
def matchNumTail (l : List Char) : Option (List Char × List Char) :=
  let d1 := l.takeWhile (·.isDigit)
  let rest1 := l.drop d1.length
  match rest1 with
  | '.' :: rest2 =>
    let d2 := rest2.takeWhile (·.isDigit)
    let rest3 := rest2.drop d2.length
    if d2.isEmpty then
      match rest3.head? with
      | some c => if isWordChar c then some (d1 ++ ['.'], rest3) else some (d1, rest1)
      | none => some (d1, rest1)
    else
      if boundaryAfterWord rest3.head? then some (d1 ++ '.' :: d2, rest3)
      else some (d1 ++ ['.'], rest2)
  | _ => if boundaryAfterWord rest1.head? then some (d1, rest1) else none

/-- Scanner for `re.findall(r'\b\d+\.?\d*\b', text)`: try every position left
to right, non-overlapping, tracking the previous character for the leading
word boundary.  Fuel decreases at each step; `findNumbers` supplies enough. -/
def findNumbersAux : ℕ → Option Char → List Char → List (List Char)
  | 0, _, _ => []
  | _, _, [] => []
  | fuel + 1, prev, c :: cs =>
    if c.isDigit && (match prev with | none => true | some p => !isWordChar p) then
      match matchNumTail (c :: cs) with
      | some (m, rest) => m :: findNumbersAux fuel m.getLast? rest
      | none => findNumbersAux fuel (some c) cs
    else findNumbersAux fuel (some c) cs

/-- `re.findall(r'\b\d+\.?\d*\b', body_text)` from `handle_calculation`. -/
def findNumbers (s : String) : List String :=
  (findNumbersAux (s.data.length + 1) none s.data).map (fun l => ⟨l⟩)

/-- Python `float` on a matched number substring (digits, optional dot, digits). -/
def strToRat (s : String) : ℚ :=
  let l := s.data
  let ip := l.takeWhile (·.isDigit)
  match l.drop ip.length with
  | '.' :: fp => (digitsToNat ip : ℚ) + (digitsToNat fp : ℚ) / ((10 : ℚ) ^ fp.length)
  | _ => (digitsToNat ip : ℚ)

/-- `handle_calculation` from app/handlers.py: extract every number substring;
absent when none; keyword-classified arithmetic over them; dict produced only
when the locator's target is truthy. -/
def handle_calculation (e s u body : String) (html : Html) : Option Payload :=
  let numbers := findNumbers body
  if numbers.isEmpty then none
  else
    let instruction := pyLower body
    let answer : ℚ :=
      if pyIn "sum" instruction || pyIn "add" instruction || pyIn "total" instruction then
        (numbers.map strToRat).sum
      else if pyIn "multiply" instruction || pyIn "product" instruction then
        (numbers.map strToRat).prod
      else if pyIn "average" instruction || pyIn "mean" instruction then
        (numbers.map strToRat).sum / (numbers.length : ℚ)
      else strToRat (numbers.headD "")
    let submit_url := optStrToJson (find_submit_url html)
    if truthy submit_url then some (mkPayload e s u (.num answer) submit_url) else none

/-- `solve_from_page_content` from app/handlers.py: the strategy dispatcher.
Strategy 1 runs only when the extracted structure is present and non-empty
(Python dict truthiness); strategy 2 when the lowered text mentions an
aggregation keyword; strategy 3 when it mentions calculate/compute; otherwise
the fallback debug dict.  Every branch returns a dict that contains the
`submit_url` key. -/
def solve_from_page_content (env : DownloadEnv) (e s u body : String) (html : Html)
    (extracted_json : Option (List (String × Json))) : Payload :=
  let s1 : Option Payload :=
    match extracted_json with
    | some data => if data.isEmpty then none else handle_json_quiz e s u data html
    | none => none
  match s1 with
  | some r => r
  | none =>
    let lower := pyLower body
    let s2 : Option Payload :=
      if ["sum", "average", "mean", "count", "total"].any (fun k => pyIn k lower) then
        handle_data_analysis env e s u body html
      else none
    match s2 with
    | some r => r
    | none =>
      let s3 : Option Payload :=
        if pyIn "calculate" lower || pyIn "compute" lower then
          handle_calculation e s u body html
        else none
      match s3 with
      | some r => r
      | none => fallbackPayload e s u body html

/-- What the runner does with the handler's dict (app/runner.py lines 50-79). -/
inductive SubmitAction where
  | posted (target : String)
  | postCallErrored
  | loggedIncomplete
deriving DecidableEq, Repr

/-- The submission step of `solve_task`: the branch is taken when the dict is
truthy and *contains the key* `submit_url` (membership, not truthiness); the
popped value is handed to `client.post`, which raises before any network send
when it is not a string URL (`None` in particular).  Only when the key is
missing does the runner log "No submit URL found in answer payload". -/
def submissionStep (answer_payload : Payload) : SubmitAction :=
  if !(List.isEmpty answer_payload) && (List.lookup "submit_url" answer_payload).isSome then
    match (List.lookup "submit_url" answer_payload).getD .null with
    | .str t => .posted t
    | _ => .postCallErrored
  else .loggedIncomplete

/-- The chain time check of `solve_task` (app/runner.py line 70):
`elapsed < timeout` with `elapsed = now - start_ts`. -/
def chainCheck (start_ts timeout now : ℚ) : Bool := now - start_ts < timeout

/-- The instant beyond which `chainCheck start_ts timeout` refuses to chain. -/
def chainCutoff (start_ts timeout : ℚ) : ℚ := start_ts + timeout

/-- The arguments of the recursive `solve_task` call (app/runner.py line 73):
the original `start_ts`, and `remaining_time = timeout - elapsed` as the new
`timeout`. -/
def nextParams (start_ts timeout now : ℚ) : ℚ × ℚ :=
  (start_ts, timeout - (now - start_ts))

/-- The `(start_ts, timeout)` pair solve_task holds after processing the given
chain-check instants in order (each chain that passes the check recurses with
`nextParams`; a failed check stops the chain). -/
def chainParamsAt (start_ts timeout : ℚ) : List ℚ → ℚ × ℚ
  | [] => (start_ts, timeout)
  | t :: ts =>
    if chainCheck start_ts timeout t then
      chainParamsAt (nextParams start_ts timeout t).1 (nextParams start_ts timeout t).2 ts
    else (start_ts, timeout)

/-- The full chaining condition of `solve_task` (app/runner.py lines 62-70):
the submission response parsed as JSON (`none` models `JSONDecodeError`), is a
dict, carries a truthy `url`, and the elapsed time is strictly below the
timeout. -/
def chainDecision (resp : Option Json) (start_ts timeout now : ℚ) : Bool :=
  match resp with
  | some (.obj kvs) => truthy (pyGet kvs "url") && decide (now - start_ts < timeout)
  | _ => false

/-- The inbound request body of `POST /task` (app/main.py). -/
structure TaskRequest where
  email : String
  secret : String
  url : String
deriving DecidableEq, Repr

/-- The observable response of the `/task` endpoint: an `HTTPException`, or a
JSON body returned with FastAPI's default status code for a plain `dict`
return (200), together with the background task that was queued. -/
inductive TaskResponse where
  | rejected (code : ℕ) (detail : String)
  | accepted (code : ℕ) (status message : String) (queuedTask : String × String × String)
deriving DecidableEq, Repr

/-- `receive_task` from app/main.py: reject a mismatched secret with a 403
`HTTPException`; otherwise queue `run_solver(email, secret, url)` and return
`{'status': 'accepted', 'message': 'Task queued for processing'}`, which
FastAPI serves with its default status code 200. -/
def receive_task (req : TaskRequest) (quizSecret : String) : TaskResponse :=
  if req.secret ≠ quizSecret then .rejected 403 "Invalid secret"
  else .accepted 200 "accepted" "Task queued for processing" (req.email, req.secret, req.url)

/-- Looking up `answer` in a strategy dict always lands on its answer field. -/
theorem lookup_mkPayload_answer (e s u : String) (a su : Json) :
    List.lookup "answer" (mkPayload e s u a su) = some a := rfl

/-- A `take` clamped at the list length is an ordinary `take`. -/
theorem take_min_length {α : Type} (l : List α) (b : ℕ) :
    l.take (min b l.length) = l.take b := by
  rcases le_total b l.length with h | h
  · rw [min_eq_left h]
  · rw [min_eq_right h, List.take_of_length_le h, List.take_of_length_le (le_refl _)]

/-- A `drop` clamped at the length of a longer list is an ordinary `drop`. -/
theorem drop_min_length {α : Type} (l l' : List α) (a : ℕ) (hlen : l'.length ≤ l.length) :
    l'.drop (min a l.length) = l'.drop a := by
  rcases le_total a l.length with h | h
  · rw [min_eq_left h]
  · rw [min_eq_right h, List.drop_of_length_le hlen, List.drop_of_length_le (hlen.trans h)]

/-- A Python slice with non-negative bounds is a drop followed by a take. -/
theorem pySlice_natCast {α : Type} (l : List α) (a b : ℕ) :
    pySlice l (a : ℤ) (b : ℤ) = (l.drop a).take (b - a) := by
  unfold pySlice pySliceIdx
  rw [if_neg (by omega), if_neg (by omega), Int.toNat_natCast, Int.toNat_natCast,
    take_min_length, drop_min_length l (l.take b) a (by simp), List.drop_take]

/-- C2.  The claim states that a chained attempt is cut off at the same
absolute instant `start + timeout` as its parent, at every depth.  The code
(app/runner.py lines 66-75) recurses with the original `start_ts` but with
`timeout = timeout - elapsed`, so the elapsed time is double-counted: with
start 0 and timeout 180, a first chain decided at t = 50 is allowed, but the
derived attempt holds the pair (0, 130), whose cutoff 130 differs from the
original 180; at t = 150 — still before the original deadline — the derived
attempt refuses to chain. -/
theorem chained_deadline_shrinks :
    chainCheck 0 180 50 = true ∧
    nextParams 0 180 50 = (0, 130) ∧
    chainParamsAt 0 180 [50] = (0, 130) ∧
    chainCutoff 0 130 = 130 ∧
    ((130 : ℚ) ≠ 180) ∧
    chainCheck 0 130 150 = false ∧
    ((150 : ℚ) < chainCutoff 0 180) := by
  refine ⟨?_, ?_, ?_, ?_, ?_, ?_, ?_⟩ <;>
    norm_num [chainCheck, nextParams, chainParamsAt, chainCutoff]

/-- C4 (counterexample).  With a matching credential the endpoint's response
status code is FastAPI's default 200, not the 202 the claim states. -/
theorem receive_task_status_not_202 :
    receive_task ⟨"a@b", "sec", "http://quiz"⟩ "sec" =
      TaskResponse.accepted 200 "accepted" "Task queued for processing"
        ("a@b", "sec", "http://quiz") ∧
    (200 : ℕ) ≠ 202 :=
  ⟨rfl, by decide⟩

/-- C4 (amended).  The endpoint validates the supplied credential against the
configured secret, rejecting mismatches with a 403 error; on a valid
credential it responds immediately with status 200 and body status
"accepted", queueing the solver as a background task. -/
theorem receive_task_validates_and_accepts (req : TaskRequest) (quizSecret : String) :
    (req.secret ≠ quizSecret →
      receive_task req quizSecret = .rejected 403 "Invalid secret") ∧
    (req.secret = quizSecret →
      receive_task req quizSecret =
        .accepted 200 "accepted" "Task queued for processing"
          (req.email, req.secret, req.url)) := by
  constructor
  · intro h; simp [receive_task, h]
  · intro h; simp [receive_task, h]

/-- Witness for C4: a mismatched secret is rejected, a matching one accepted. -/
theorem receive_task_validates_and_accepts_witness :
    receive_task ⟨"a@b", "wrong", "http://quiz"⟩ "sec" =
      TaskResponse.rejected 403 "Invalid secret" ∧
    receive_task ⟨"a@b", "sec", "http://quiz"⟩ "sec" =
      TaskResponse.accepted 200 "accepted" "Task queued for processing"
        ("a@b", "sec", "http://quiz") :=
  ⟨(receive_task_validates_and_accepts ⟨"a@b", "wrong", "http://quiz"⟩ "sec").1 (by decide),
   (receive_task_validates_and_accepts ⟨"a@b", "sec", "http://quiz"⟩ "sec").2 rfl⟩

/-- C5.  For a submission response that names a truthy follow-up url, the
chain condition of `solve_task` holds exactly when the check instant is
strictly before `start_ts + timeout`; at that boundary instant it is false. -/
theorem chain_iff_strictly_before_deadline (kvs : List (String × Json))
    (start_ts timeout now : ℚ) (hurl : truthy (pyGet kvs "url") = true) :
    (chainDecision (some (.obj kvs)) start_ts timeout now = true ↔
      now < chainCutoff start_ts timeout) ∧
    chainDecision (some (.obj kvs)) start_ts timeout (chainCutoff start_ts timeout) = false := by
  constructor
  · simp only [chainDecision, hurl, Bool.true_and, decide_eq_true_eq, chainCutoff]
    constructor <;> intro h <;> linarith
  · simp only [chainDecision, hurl, Bool.true_and, chainCutoff, decide_eq_false_iff_not]
    intro h
    linarith

/-- Witness for C5 at a concrete response and concrete instants. -/
theorem chain_iff_strictly_before_deadline_witness :
    ((chainDecision (some (.obj [("url", Json.str "https://next")])) 0 180 50 = true ↔
        (50 : ℚ) < chainCutoff 0 180) ∧
      chainDecision (some (.obj [("url", Json.str "https://next")])) 0 180
        (chainCutoff 0 180) = false) :=
  chain_iff_strictly_before_deadline [("url", Json.str "https://next")] 0 180 50 rfl

/-- C8.  A text that triggers the arithmetic strategy but contains no
substring matched by the decimal-number pattern makes the strategy yield
absent. -/
theorem calculation_absent_without_numbers (e s u body : String) (html : Html)
    (htrig : (pyIn "calculate" (pyLower body) || pyIn "compute" (pyLower body)) = true)
    (hnum : findNumbers body = []) :
    handle_calculation e s u body html = none := by
  simp [handle_calculation, hnum]

/-- Witness for C8: a triggering text with no number substrings. -/
theorem calculation_absent_without_numbers_witness :
    handle_calculation "a@b" "sec" "http://quiz" "please compute the answer" ⟨[], []⟩ = none :=
  calculation_absent_without_numbers "a@b" "sec" "http://quiz" "please compute the answer"
    ⟨[], []⟩ (by decide) (by decide)

/-- C6.  When the extracted structure contains the key `answer`, any payload
the embedded-structure strategy produces carries that value unchanged,
whatever its JSON type. -/
theorem embedded_answer_identity (e s u : String) (data : List (String × Json))
    (html : Html) (v : Json) (p : Payload)
    (hv : List.lookup "answer" data = some v)
    (hp : handle_json_quiz e s u data html = some p) :
    List.lookup "answer" p = some v := by
  unfold handle_json_quiz at hp
  rw [hv] at hp
  simp only [Option.isSome_some, if_true, Option.getD_some] at hp
  split at hp
  · injection hp with hp'
    rw [← hp']
    exact lookup_mkPayload_answer e s u v _
  · simp at hp

/-- Witness for C6 with a non-scalar answer value. -/
theorem embedded_answer_identity_witness :
    List.lookup "answer"
        (mkPayload "a@b" "sec" "http://quiz" (Json.arr [Json.num 1, Json.str "two"])
          (Json.str "https://x/submit")) =
      some (Json.arr [Json.num 1, Json.str "two"]) :=
  embedded_answer_identity "a@b" "sec" "http://quiz"
    [("answer", Json.arr [Json.num 1, Json.str "two"]), ("submit", Json.str "https://x/submit")]
    ⟨[], []⟩ (Json.arr [Json.num 1, Json.str "two"])
    (mkPayload "a@b" "sec" "http://quiz" (Json.arr [Json.num 1, Json.str "two"])
      (Json.str "https://x/submit"))
    rfl rfl

/-- C9.  When the structure's `submit`/`submit_url` fields are not truthy and
the locator finds nothing in the markup, the embedded-structure strategy
itself returns absent, and the dispatcher behaves exactly as if no structure
had been extracted, falling through to the tabular and arithmetic
strategies. -/
theorem unsubmittable_structure_falls_through (env : DownloadEnv) (e s u body : String)
    (html : Html) (data : List (String × Json))
    (h1 : truthy (pyGet data "submit") = false)
    (h2 : truthy (pyGet data "submit_url") = false)
    (h3 : find_submit_url html = none) :
    handle_json_quiz e s u data html = none ∧
    solve_from_page_content env e s u body html (some data) =
      solve_from_page_content env e s u body html none := by
  have hq : handle_json_quiz e s u data html = none := by
    have hs : pyOr (pyGet data "submit")
        (pyOr (pyGet data "submit_url") (optStrToJson (find_submit_url html))) = Json.null := by
      unfold pyOr
      rw [h1, h2, h3]
      rfl
    simp only [handle_json_quiz, hs]
    rfl
  refine ⟨hq, ?_⟩
  simp only [solve_from_page_content, hq, ite_self]

/-- Witness for C9: a structure with an answer but no locatable target. -/
theorem unsubmittable_structure_falls_through_witness :
    handle_json_quiz "a@b" "sec" "http://quiz" [("answer", Json.num 5)] ⟨[], []⟩ = none ∧
    solve_from_page_content (fun _ => none) "a@b" "sec" "http://quiz" "hi" ⟨[], []⟩
        (some [("answer", Json.num 5)]) =
      solve_from_page_content (fun _ => none) "a@b" "sec" "http://quiz" "hi" ⟨[], []⟩ none :=
  unsubmittable_structure_falls_through (fun _ => none) "a@b" "sec" "http://quiz" "hi"
    ⟨[], []⟩ [("answer", Json.num 5)] rfl rfl rfl

/-- A concrete one-column frame used by the tabular claims: a numeric column
`score` holding the three rows 1, 2, 3. -/
def dfScore : DataFrame := ⟨[⟨"score", true, [1, 2, 3]⟩]⟩

/-- A Python scalar access at `n - 1` for `n ≥ 1` is an ordinary list lookup. -/
theorem pyIlocGet_nonneg {α : Type} (l : List α) (n : ℕ) (h1 : 1 ≤ n) :
    pyIlocGet l ((n : ℤ) - 1) = l[n - 1]? := by
  unfold pyIlocGet
  rw [if_pos (by omega : (0 : ℤ) ≤ (n : ℤ) - 1)]
  have : ((n : ℤ) - 1).toNat = n - 1 := by omega
  rw [this]

/-- A Python scalar access at index -1 reads the last element. -/
theorem pyIlocGet_neg_one {α : Type} (l : List α) (i : ℤ) (hi : i = -1) (hne : l ≠ []) :
    pyIlocGet l i = some (l.getLast hne) := by
  subst hi
  have hlen : 0 < l.length := List.length_pos.mpr hne
  unfold pyIlocGet
  rw [if_neg (by omega), if_pos (by omega : (0 : ℤ) ≤ (l.length : ℤ) + -1)]
  have : ((l.length : ℤ) + -1).toNat = l.length - 1 := by omega
  rw [this, ← List.getLast?_eq_getElem?, List.getLast?_eq_getLast l hne]

/-- C3 (counterexample).  The claim says an out-of-bounds "row N" yields
absent; on a three-row frame, "row 5" instead falls through to the `sum`
aggregation over the whole column and yields 6. -/
theorem row_beyond_bounds_not_absent :
    compute_from_dataframe dfScore "sum of score row 5" = some 6 ∧
    compute_from_dataframe dfScore "sum of score row 5" ≠ none := by
  have h : compute_from_dataframe dfScore "sum of score row 5" =
      some (List.sum [(1 : ℚ), 2, 3]) := rfl
  constructor
  · rw [h]
    norm_num [List.sum_cons, List.sum_nil]
  · rw [h]
    simp

/-- C3 (amended).  For an instruction matching "row N" (with N ≥ 1, and no
"page" directive, which would take priority): when N ≤ row count the
computation returns exactly the value at 1-indexed position N of the selected
column, bypassing aggregation; when N exceeds the row count the row directive
is ignored and the computation returns the keyword aggregation over the whole
column instead of absent. -/
theorem row_directive_in_bounds_or_fallthrough (df : DataFrame) (instr : String)
    (col : Column) (n : ℕ)
    (hcol : pickColumn df instr = some col)
    (hpage : searchNumAfter "page".data instr.data = none)
    (hrow : searchNumAfter "row".data instr.data = some n)
    (h1 : 1 ≤ n) :
    compute_from_dataframe df instr =
      if n ≤ dfLen df then col.values[n - 1]? else some (aggregate instr col.values) := by
  simp only [compute_from_dataframe, hcol, hpage, hrow]
  by_cases h : n ≤ dfLen df
  · rw [if_pos h, if_pos h, pyIlocGet_nonneg col.values n h1]
  · rw [if_neg h, if_neg h]

/-- Witness for C3's in-bounds branch: "row 2" on the three-row frame reads
the second value directly. -/
theorem row_directive_in_bounds_or_fallthrough_witness :
    compute_from_dataframe dfScore "sum of score row 2" = some 2 := by
  rw [row_directive_in_bounds_or_fallthrough dfScore "sum of score row 2"
    ⟨"score", true, [1, 2, 3]⟩ 2 (by decide) (by decide) (by decide) (by decide)]
  decide

/-- C7.  A "page N" directive (N ≥ 1) restricts the aggregation to the rows
`[(N-1)*10, (N-1)*10+10)` of the selected column — a drop of (N-1)*10 rows
followed by a take of 10 — whatever aggregation keyword the instruction
carries. -/
theorem page_windowing (df : DataFrame) (instr : String) (col : Column) (n : ℕ)
    (hcol : pickColumn df instr = some col)
    (hpage : searchNumAfter "page".data instr.data = some n)
    (h1 : 1 ≤ n) :
    compute_from_dataframe df instr =
      some (aggregate instr ((col.values.drop ((n - 1) * 10)).take 10)) := by
  simp only [compute_from_dataframe, hcol, hpage]
  have hcast : ((n : ℤ) - 1) * 10 = (((n - 1) * 10 : ℕ) : ℤ) := by omega
  have hcast2 : ((((n - 1) * 10 : ℕ)) : ℤ) + 10 = ((((n - 1) * 10 + 10 : ℕ)) : ℤ) := by omega
  rw [hcast, hcast2, pySlice_natCast]
  have hten : (n - 1) * 10 + 10 - (n - 1) * 10 = 10 := by omega
  rw [hten]

/-- Witness for C7: page 1 of the three-row frame windows rows [0, 10) and the
`sum` keyword aggregates them to 6. -/
theorem page_windowing_witness :
    compute_from_dataframe dfScore "sum of score page 1" = some 6 := by
  rw [page_windowing dfScore "sum of score page 1" ⟨"score", true, [1, 2, 3]⟩ 1
    (by decide) (by decide) (by decide)]
  have h : aggregate "sum of score page 1"
      ((({ name := "score", isNumeric := true, values := [1, 2, 3] } : Column).values.drop
        ((1 - 1) * 10)).take 10) = List.sum [(1 : ℚ), 2, 3] := rfl
  rw [h]
  norm_num [List.sum_cons, List.sum_nil]

/-- C10.  A "row 0" directive passes the `row_num <= len(df)` bounds check
(0 is below every length) and Python's negative indexing makes
`df.iloc[-1][column]` read the last row of the selected column, so the
computation returns the last value rather than absent or an error. -/
theorem row_zero_reads_last (df : DataFrame) (instr : String) (col : Column)
    (hcol : pickColumn df instr = some col)
    (hpage : searchNumAfter "page".data instr.data = none)
    (hrow : searchNumAfter "row".data instr.data = some 0)
    (hne : col.values ≠ []) :
    compute_from_dataframe df instr = some (col.values.getLast hne) := by
  simp only [compute_from_dataframe, hcol, hpage, hrow]
  rw [if_pos (Nat.zero_le _), pyIlocGet_neg_one col.values _ (by omega) hne]

/-- Witness for C10: "row 0" on the three-row frame returns its last value. -/
theorem row_zero_reads_last_witness :
    compute_from_dataframe dfScore "sum of score row 0" = some 3 := by
  rw [row_zero_reads_last dfScore "sum of score row 0" ⟨"score", true, [1, 2, 3]⟩
    (by decide) (by decide) (by decide) (by decide)]
  decide

/-- Markup with no anchors and no forms: no submit target is locatable. -/
def noTargetHtml : Html := ⟨[], []⟩

/-- Markup whose only anchor carries an empty `href` attribute but visible
text mentioning "submit": the locator returns the empty string. -/
def emptyHrefHtml : Html := ⟨[⟨"", "submit here"⟩], []⟩

/-- An environment in which every download fails (irrelevant to these pages,
whose markup holds no file links). -/
def noopEnv : DownloadEnv := fun _ => none

/-- C1.  The claim's invariant fails in the code.  On a page where no
submission target is locatable, the fallback dict still carries the
`submit_url` key with value `None`, so the runner's key-membership test sends
it into the submission branch — `client.post` is invoked with a `None` target
(raising, logged as a generic error) — and the "No submit URL found in answer
payload" incomplete log is never reached.  And on a page whose only anchor has
an empty `href` but text mentioning "submit", the locator resolves the target
to the empty string and the runner POSTs to it, so a resolved submissionTarget
can be the empty string. -/
theorem submit_branch_taken_without_target :
    find_submit_url noTargetHtml = none ∧
    List.lookup "submit_url"
        (solve_from_page_content noopEnv "a@b" "sec" "http://quiz" "hello there"
          noTargetHtml none) = some Json.null ∧
    submissionStep
        (solve_from_page_content noopEnv "a@b" "sec" "http://quiz" "hello there"
          noTargetHtml none) = SubmitAction.postCallErrored ∧
    submissionStep
        (solve_from_page_content noopEnv "a@b" "sec" "http://quiz" "hello there"
          noTargetHtml none) ≠ SubmitAction.loggedIncomplete ∧
    find_submit_url emptyHrefHtml = some "" ∧
    List.lookup "submit_url"
        (solve_from_page_content noopEnv "a@b" "sec" "http://quiz" "hello there"
          emptyHrefHtml none) = some (Json.str "") ∧
    submissionStep
        (solve_from_page_content noopEnv "a@b" "sec" "http://quiz" "hello there"
          emptyHrefHtml none) = SubmitAction.posted "" :=
  ⟨rfl, rfl, rfl, by decide, rfl, rfl, rfl⟩
